import Mathlib

/-!
# Verification of the `txnbuild` transaction-construction core

Shallow embedding of the transaction builder of the `exp/txnbuild`
package (`allow_trust.go`: `AllowTrust.BuildXDR`, `Transaction.Build`,
`Transaction.SetDefaultFee`, `Transaction.Sign`) and of the
`Timebounds` validator (`timebounds.go`).

Errors are modelled as the strings the Go code produces; `errors.Wrap`
becomes string concatenation with `": "`, matching the messages the
package's own tests assert on.  Fallible Go functions become
`Except String _`.  The 32-bit wire fee field (`xdr.Uint32`) is a `Nat`
reduced modulo `2 ^ 32` exactly where the Go code converts, and the
64-bit wire time fields (`xdr.Uint64`) are `Nat`s obtained from the
signed `int64` fields by reduction modulo `2 ^ 64`, matching Go's
integer conversions.

External collaborators of the package (the `xdr` address codec, the
`network` hashing helper and the `keypair` signer, which live in the
same repository but outside the shown sources) are modelled from the
spec as deterministic total functions; each such definition carries a
doc comment saying so.
-/

set_option autoImplicit false

instance {ε α : Type} [DecidableEq ε] [DecidableEq α] : DecidableEq (Except ε α) := fun a b =>
  match a, b with
  | .error x, .error y =>
    if h : x = y then .isTrue (by rw [h]) else .isFalse (by simp [h])
  | .error _, .ok _ => .isFalse (by simp)
  | .ok _, .error _ => .isFalse (by simp)
  | .ok x, .ok y =>
    if h : x = y then .isTrue (by rw [h]) else .isFalse (by simp [h])

/-- `errors.Wrap(err, msg)` from `support/errors`: produces the message
`msg ++ ": " ++ err` (for a non-nil `err`; the nil case is covered by our
use of `Except`). -/
def errWrap (msg err : String) : String := msg ++ ": " ++ err

/-! ## Timebounds (`timebounds.go`) -/

/-- `Timebounds` from `timebounds.go`: a min/max validity window plus the
private `wasBuilt` flag recording construction through a factory. The Go
fields are `int64`; we use `Int` (no arithmetic is performed on them, so
no overflow point arises). -/
structure Timebounds where
  minTime : Int
  maxTime : Int
  wasBuilt : Bool
deriving Repr, DecidableEq

/-- `TimeoutInfinite` from `timebounds.go`. -/
def TimeoutInfinite : Int := 0

/-- `Timebounds.Validate` from `timebounds.go`, with the exact error
strings of the source. -/
def Timebounds.validate (tb : Timebounds) : Except String Unit :=
  if !tb.wasBuilt then
    .error "timebounds must be constructed using SetTimebounds(), SetTimeout(), or SetNoTimeout()"
  else if tb.minTime < 0 then
    .error "invalid timebound: minTime cannot be negative"
  else if tb.maxTime < 0 then
    .error "invalid timebound: maxTime cannot be negative"
  else if tb.maxTime ≠ TimeoutInfinite ∧ tb.maxTime < tb.minTime then
    .error "invalid timebound: maxTime < minTime"
  else
    .ok ()

/-- `SetTimebounds` factory from `timebounds.go`. -/
def SetTimebounds (minTime maxTime : Int) : Timebounds :=
  ⟨minTime, maxTime, true⟩

/-- `SetTimeout` factory from `timebounds.go`; the wall-clock reading
`time.Now().UTC().Unix()` is passed in explicitly as `now`. -/
def SetTimeoutAt (now minTime timeout : Int) : Timebounds :=
  ⟨minTime, now + timeout, true⟩

/-- `SetNoTimeout` factory from `timebounds.go`. -/
def SetNoTimeout (minTime : Int) : Timebounds :=
  ⟨minTime, TimeoutInfinite, true⟩

/-! ## Wire-level (XDR) structures

Only the shape the builder manipulates is modelled; the payload of an
already-converted operation body or memo is opaque (a string). -/

/-- A converted wire operation body (`xdr.Operation`); opaque payload. -/
structure XdrOperation where
  body : String
deriving Repr, DecidableEq

/-- A converted wire memo (`xdr.Memo`); opaque payload. -/
structure XdrMemo where
  content : String
deriving Repr, DecidableEq

/-- `xdr.TimeBounds`: two unsigned 64-bit times. -/
structure XdrTimeBounds where
  minTime : Nat
  maxTime : Nat
deriving Repr, DecidableEq

/-- Go's `xdr.Uint64(i)` conversion from a signed 64-bit `i`: reduction
modulo `2 ^ 64` (Go integer conversion keeps the low 64 bits). -/
def toUint64 (i : Int) : Nat := (i % (2 ^ 64 : Int)).toNat

/-- `xdr.Transaction` as the builder populates it: source account,
fee (unsigned 32-bit), sequence number, optional timebounds, optional
memo (the Go zero `xdr.Memo` is `none` here), staged operation list. -/
structure XdrTransaction where
  sourceAccount : String
  fee : Nat
  seqNum : Int
  timeBounds : Option XdrTimeBounds
  memo : Option XdrMemo
  operations : List XdrOperation
deriving Repr, DecidableEq

/-- The zero `xdr.Transaction` a freshly constructed `Transaction`
carries. -/
def XdrTransaction.empty : XdrTransaction :=
  ⟨"", 0, 0, none, none, []⟩

/-- `xdr.TransactionEnvelope`: the snapshotted body plus the ordered,
append-only decorated-signature sequence. -/
structure TxHash where
  network : String
  body : XdrTransaction
deriving Repr, DecidableEq

/-- `xdr.DecoratedSignature`: a key hint plus the signature payload.
The raw signature bytes are modelled as the signed hash itself (the
spec's crypto collaborator is deterministic in key and message). -/
structure DecoratedSignature where
  hint : String
  signedHash : TxHash
deriving Repr, DecidableEq

structure XdrEnvelope where
  tx : XdrTransaction
  signatures : List DecoratedSignature
deriving Repr, DecidableEq

/-! ## Package interfaces (`Operation`, `Memo`, `Account`, `keypair`) -/

/-- The `Operation` interface as the builder consumes it: the Go type
name (what `fmt.Sprintf("%T", op)` prints) and the result of the single
`BuildXDR()` call the builder performs on it. -/
structure Operation where
  typeName : String
  buildXDR : Except String XdrOperation
deriving Repr, DecidableEq

/-- The `Memo` interface as the builder consumes it: the result of the
single `ToXDR()` call. -/
structure Memo where
  toXDR : Except String XdrMemo
deriving Repr, DecidableEq

/-- The `Account` capability: the identity string and the result of the
single `IncrementSequenceNumber()` call a `Build` performs. -/
structure Account where
  getAccountID : String
  incrementSequenceNumber : Except String Int
deriving Repr, DecidableEq

/-- A signing keypair. Modelled from the spec: the crypto collaborator
is opaque; only its address/hint and determinism matter here. -/
structure Keypair where
  address : String
deriving Repr, DecidableEq

/-- Modelled from the spec: `keypair.Full.SignDecorated` (crypto
collaborator, not among the shown sources) - deterministic with respect
to the key and the hashed message, producing a hint naming the key. -/
def Keypair.signDecorated (kp : Keypair) (h : TxHash) : DecoratedSignature :=
  ⟨kp.address, h⟩

/-! ## Transaction (`allow_trust.go`) -/

/-- `Transaction` from `allow_trust.go`: the caller-facing fields plus
the staged `xdrTransaction` body and the lazily created envelope. -/
structure Transaction where
  sourceAccount : Account
  operations : List Operation
  xdrTransaction : XdrTransaction
  baseFee : Nat
  memo : Option Memo
  minTime : Int
  maxTime : Int
  network : String
  xdrEnvelope : Option XdrEnvelope
deriving Repr, DecidableEq

/-- `Transaction.SetDefaultFee` from `allow_trust.go`: base fee defaults
to 100 when unset; the wire fee, when still zero, becomes
`xdr.Uint32(int(BaseFee) * len(operations))`, i.e. the product reduced
modulo `2 ^ 32`. -/
def Transaction.setDefaultFee (tx : Transaction) : Transaction :=
  let tx1 := if tx.baseFee = 0 then { tx with baseFee := 100 } else tx
  if tx1.xdrTransaction.fee = 0 then
    { tx1 with xdrTransaction := { tx1.xdrTransaction with
        fee := (tx1.baseFee * tx1.xdrTransaction.operations.length) % (2 ^ 32) } }
  else tx1

/-- The per-operation conversion loop of `Transaction.Build`: convert
each operation in declared order, appending wire bodies to the staged
list; on the first failure abort with
`errors.Wrap(err, fmt.Sprintf("Failed to build operation %T", op))`. -/
def buildOpsLoop : List Operation → List XdrOperation → Except String (List XdrOperation)
  | [], staged => .ok staged
  | op :: rest, staged =>
    match op.buildXDR with
    | .error e => .error (errWrap ("Failed to build operation " ++ op.typeName) e)
    | .ok xop => buildOpsLoop rest (staged ++ [xop])

/-- `Transaction.Build` from `allow_trust.go`. Stage order as in the
source: set the source account address on the wire body (the Go code
discards `SetAddress`'s error), obtain the sequence number, convert the
operations in order, attach timebounds only when `MinTime > 0 ||
MaxTime > 0`, convert the memo when present, then apply
`SetDefaultFee`. -/
def Transaction.build (tx : Transaction) : Except String Transaction :=
  let txA := { tx with xdrTransaction :=
      { tx.xdrTransaction with sourceAccount := tx.sourceAccount.getAccountID } }
  match txA.sourceAccount.incrementSequenceNumber with
  | .error e => .error (errWrap "Failed to parse sequence number" e)
  | .ok seqnum =>
    let txB := { txA with xdrTransaction := { txA.xdrTransaction with seqNum := seqnum } }
    match buildOpsLoop txB.operations txB.xdrTransaction.operations with
    | .error e => .error e
    | .ok staged =>
      let txC := { txB with xdrTransaction := { txB.xdrTransaction with operations := staged } }
      let txD :=
        if txC.minTime > 0 ∨ txC.maxTime > 0 then
          { txC with xdrTransaction := { txC.xdrTransaction with
              timeBounds := some ⟨toUint64 txC.minTime, toUint64 txC.maxTime⟩ } }
        else txC
      match txD.memo with
      | none => .ok txD.setDefaultFee
      | some m =>
        match m.toXDR with
        | .error e => .error (errWrap "Couldn't build memo XDR" e)
        | .ok xm =>
          .ok ({ txD with xdrTransaction :=
              { txD.xdrTransaction with memo := some xm } }).setDefaultFee

/-- `Transaction.Hash` from `allow_trust.go`. Modelled from the spec:
`network.HashTransaction` (not among the shown sources) is a
deterministic digest of the network identity together with the built
body; the pair itself serves as the digest value. -/
def Transaction.hash (tx : Transaction) : TxHash :=
  ⟨tx.network, tx.xdrTransaction⟩

/-- `Transaction.Sign` from `allow_trust.go`: create the envelope and
snapshot the built body into it only when no envelope exists yet, hash
the current built body, sign, and append the decorated signature to the
envelope's sequence. The hash and signer collaborators are modelled as
total, so the two error paths of the Go code do not arise. -/
def Transaction.sign (tx : Transaction) (kp : Keypair) : Transaction :=
  let env := match tx.xdrEnvelope with
    | none => XdrEnvelope.mk tx.xdrTransaction []
    | some e => e
  let sig := kp.signDecorated tx.hash
  { tx with xdrEnvelope := some { env with signatures := env.signatures ++ [sig] } }

/-- The body held by the transaction's envelope, when one exists. -/
def Transaction.envelopeBody (tx : Transaction) : Option XdrTransaction :=
  tx.xdrEnvelope.map XdrEnvelope.tx

/-- The signature sequence held by the transaction's envelope (empty
when no envelope exists yet). -/
def Transaction.envelopeSigs (tx : Transaction) : List DecoratedSignature :=
  match tx.xdrEnvelope with
  | none => []
  | some e => e.signatures

/-- A caller mutating the staged built body of a transaction in place
(the aliasing the spec's snapshot-staleness note discusses). -/
def Transaction.withBuiltBody (tx : Transaction) (b : XdrTransaction) : Transaction :=
  { tx with xdrTransaction := b }

/-! ## AllowTrust (`allow_trust.go`) -/

/-- The `Asset` interface as `AllowTrust` consumes it: the native lumen
or an issued (credit) asset. -/
inductive Asset where
  | native
  | credit (code : String) (issuer : String)
deriving Repr, DecidableEq

/-- `Asset.IsNative`. -/
def Asset.isNative : Asset → Bool
  | .native => true
  | .credit _ _ => false

/-- `Asset.GetCode`. -/
def Asset.getCode : Asset → String
  | .native => ""
  | .credit c _ => c

/-- Modelled from the spec: the `xdr` strkey address decoder behind
`SetAddress` / `SetTrustor` (not among the shown sources) - accepts a
well-formed 56-character `G...` public-key address, rejects anything
else with an error naming the malformed input. -/
def setAddressOk (addr : String) : Bool :=
  addr.data.length == 56 && addr.data.head? == some 'G'

/-- `AllowTrust` operation from `allow_trust.go`. -/
structure AllowTrust where
  trustor : String
  type : Asset
  authorize : Bool
deriving Repr, DecidableEq

/-- `AllowTrust.BuildXDR` from `allow_trust.go`, stage order as in the
source: set the trustor address (wrapping a decoder failure), reject a
native asset with the exact error string of the source, then convert
the asset. The `xdr` asset conversions (`ToXDR`,
`ToAllowTrustOpAsset`), which are not among the shown sources, are
modelled from the spec as succeeding for every issued asset. -/
def AllowTrust.buildXDR (a : AllowTrust) : Except String XdrOperation :=
  if !setAddressOk a.trustor then
    .error (errWrap "Failed to set trustor address" ("invalid address " ++ a.trustor))
  else if a.type.isNative then
    .error "Trustline doesn't exist for a native (XLM) asset"
  else
    .ok ⟨"allowTrust|" ++ a.trustor ++ "|" ++ a.type.getCode ++ "|"
          ++ (if a.authorize then "true" else "false")⟩

/-- The `Operation`-interface view of an `AllowTrust` value (its Go
dynamic type is `*txnbuild.AllowTrust`). -/
def AllowTrust.asOperation (a : AllowTrust) : Operation :=
  ⟨"*txnbuild.AllowTrust", a.buildXDR⟩

/-! ## Helper lemmas on the build pipeline -/

/-- Spec-side reference sequence for C6 (refinement): the per-operation
wire conversions of the supplied operations, in the order they were
supplied, failing when any conversion fails. -/
def wireConversions : List Operation → Except String (List XdrOperation)
  | [] => .ok []
  | op :: rest =>
    match op.buildXDR, wireConversions rest with
    | .ok b, .ok bs => .ok (b :: bs)
    | .error e, _ => .error e
    | .ok _, .error e => .error e

theorem buildOpsLoop_ok (ops : List Operation) :
    ∀ acc res, buildOpsLoop ops acc = .ok res →
      ∃ out, wireConversions ops = .ok out ∧ res = acc ++ out ∧
        out.length = ops.length := by
  induction ops with
  | nil =>
    intro acc res h
    exact ⟨[], rfl, by simpa [buildOpsLoop] using h.symm, rfl⟩
  | cons op rest ih =>
    intro acc res h
    unfold buildOpsLoop at h
    cases hop : op.buildXDR with
    | error e => rw [hop] at h; exact absurd h (by simp)
    | ok b =>
      rw [hop] at h
      obtain ⟨out, hout, hres, hlen⟩ := ih (acc ++ [b]) res h
      exact ⟨b :: out, by simp [wireConversions, hop, hout], by simp [hres], by simp [hlen]⟩

theorem buildOpsLoop_all_ok (ops : List Operation)
    (hops : ∀ op ∈ ops, ∃ b, op.buildXDR = .ok b) :
    ∀ acc, ∃ res, buildOpsLoop ops acc = .ok res := by
  induction ops with
  | nil => intro acc; exact ⟨acc, rfl⟩
  | cons op rest ih =>
    intro acc
    obtain ⟨b, hb⟩ := hops op (by simp)
    obtain ⟨res, hres⟩ := ih (fun o ho => hops o (by simp [ho])) (acc ++ [b])
    exact ⟨res, by simp [buildOpsLoop, hb, hres]⟩

theorem buildOpsLoop_first_error (good : List Operation) (bad : Operation)
    (rest : List Operation) (e : String)
    (hgood : ∀ op ∈ good, ∃ b, op.buildXDR = .ok b)
    (hbad : bad.buildXDR = .error e) :
    ∀ acc, buildOpsLoop (good ++ bad :: rest) acc =
      .error (errWrap ("Failed to build operation " ++ bad.typeName) e) := by
  induction good with
  | nil => intro acc; simp [buildOpsLoop, hbad]
  | cons op tl ih =>
    intro acc
    obtain ⟨b, hb⟩ := hgood op (by simp)
    simp only [List.cons_append, buildOpsLoop, hb]
    exact ih (fun o ho => hgood o (by simp [ho])) (acc ++ [b])

/-- Characterization of a successful `Build`: the staged wire fields of
the result, in terms of the input transaction. -/
theorem build_ok_fields (tx tx' : Transaction) (h : tx.build = .ok tx') :
    ∃ staged, buildOpsLoop tx.operations tx.xdrTransaction.operations = .ok staged ∧
      tx'.xdrTransaction.operations = staged ∧
      tx'.xdrTransaction.timeBounds =
        (if tx.minTime > 0 ∨ tx.maxTime > 0
         then some ⟨toUint64 tx.minTime, toUint64 tx.maxTime⟩
         else tx.xdrTransaction.timeBounds) ∧
      tx'.xdrTransaction.fee =
        (if tx.xdrTransaction.fee = 0
         then ((if tx.baseFee = 0 then 100 else tx.baseFee) * staged.length) % (2 ^ 32)
         else tx.xdrTransaction.fee) := by
  unfold Transaction.build at h
  cases hseq : tx.sourceAccount.incrementSequenceNumber with
  | error e => simp [hseq] at h
  | ok s =>
    simp only [hseq] at h
    cases hloop : buildOpsLoop tx.operations tx.xdrTransaction.operations with
    | error e => simp [hloop] at h
    | ok staged =>
      simp only [hloop] at h
      refine ⟨staged, rfl, ?_⟩
      by_cases htb : tx.minTime > 0 ∨ tx.maxTime > 0 <;>
        simp only [htb, if_true, if_false, ite_true, ite_false] at h ⊢ <;>
        cases hm : tx.memo with
        | none =>
          simp only [hm] at h
          cases h
          by_cases hf : tx.xdrTransaction.fee = 0 <;>
            by_cases hbf : tx.baseFee = 0 <;>
            simp [Transaction.setDefaultFee, hf, hbf]
        | some m =>
          simp only [hm] at h
          cases hx : m.toXDR with
          | error e => simp [hx] at h
          | ok xm =>
            simp only [hx] at h
            cases h
            by_cases hf : tx.xdrTransaction.fee = 0 <;>
              by_cases hbf : tx.baseFee = 0 <;>
              simp [Transaction.setDefaultFee, hf, hbf]

/-- A successful `Build` exists whenever the sequence-number retrieval,
every per-operation conversion and the memo conversion (when a memo is
present) succeed; no other stage of the pipeline can fail. -/
theorem build_ok_of_stages (tx : Transaction) (s : Int)
    (hseq : tx.sourceAccount.incrementSequenceNumber = .ok s)
    (hops : ∀ op ∈ tx.operations, ∃ b, op.buildXDR = .ok b)
    (hmemo : tx.memo = none ∨ ∃ m xm, tx.memo = some m ∧ m.toXDR = .ok xm) :
    ∃ tx', tx.build = .ok tx' := by
  obtain ⟨staged, hstaged⟩ := buildOpsLoop_all_ok tx.operations hops tx.xdrTransaction.operations
  unfold Transaction.build
  rcases hmemo with hm | ⟨m, xm, hm, hx⟩ <;>
    by_cases htb : tx.minTime > 0 ∨ tx.maxTime > 0 <;>
    simp [hseq, hstaged, hm, htb] <;>
    simp [hx]

/-- `True` exactly when `Build` returns without error. -/
def Transaction.buildSucceeds (tx : Transaction) : Bool :=
  match tx.build with
  | .ok _ => true
  | .error _ => false

/-- The transaction a successful `Build` produces (the input itself in
the error case; used only to name concrete built values in witnesses). -/
def Transaction.builtOf (tx : Transaction) : Transaction :=
  match tx.build with
  | .ok t => t
  | .error _ => tx

/-- The wire fee a successful `Build` leaves on the staged body. -/
def Transaction.builtWireFee (tx : Transaction) : Except String Nat :=
  tx.build.map (fun t => t.xdrTransaction.fee)

/-! ## Concrete fixtures -/

/-- A test account whose sequence-number retrieval succeeds. -/
def testAccount : Account :=
  ⟨"GB7BDSZU2Y27LYNLALKKALB52WS2IZWYBDGY6EQBLEED3TJOCVMZRH7H", .ok 3556091187167236⟩

/-- An operation whose wire conversion always succeeds (the `Inflation`
no-op of the package's tests). -/
def inflationOp : Operation := ⟨"*txnbuild.Inflation", .ok ⟨"inflation"⟩⟩

/-- An operation whose wire conversion fails the way the package's
`Payment` does when no asset is set (message from the test suite). -/
def assetlessPaymentOp : Operation :=
  ⟨"*txnbuild.Payment", .error "You must specify an asset for payment"⟩

def testNetwork : String := "Test SDF Network ; September 2015"

/-- A fresh transaction over `testAccount` with the given operations,
fee fields and timebounds fields. -/
def mkTx (ops : List Operation) (baseFee fee : Nat) (mn mx : Int) : Transaction :=
  { sourceAccount := testAccount
    operations := ops
    xdrTransaction := { XdrTransaction.empty with fee := fee }
    baseFee := baseFee
    memo := none
    minTime := mn
    maxTime := mx
    network := testNetwork
    xdrEnvelope := none }

/-! ## Claim C4: `Timebounds.Validate` -/

/-- C4: `Validate()` fails with the not-constructed error whenever the
value was not produced by a factory (regardless of the numeric fields);
otherwise the negative-min, negative-max and `max < min` checks fire in
that order; a factory-built value with `min ≥ 0` and (`max = 0` or
`max ≥ min`, max nonnegative) validates successfully. -/
theorem c4_timebounds_validate (tb : Timebounds) :
    (tb.wasBuilt = false →
      tb.validate = .error "timebounds must be constructed using SetTimebounds(), SetTimeout(), or SetNoTimeout()") ∧
    (tb.wasBuilt = true → tb.minTime < 0 →
      tb.validate = .error "invalid timebound: minTime cannot be negative") ∧
    (tb.wasBuilt = true → 0 ≤ tb.minTime → tb.maxTime < 0 →
      tb.validate = .error "invalid timebound: maxTime cannot be negative") ∧
    (tb.wasBuilt = true → 0 ≤ tb.minTime → 0 ≤ tb.maxTime →
      tb.maxTime ≠ 0 → tb.maxTime < tb.minTime →
      tb.validate = .error "invalid timebound: maxTime < minTime") ∧
    (tb.wasBuilt = true → 0 ≤ tb.minTime →
      (tb.maxTime = 0 ∨ tb.minTime ≤ tb.maxTime) →
      tb.validate = .ok ()) := by
  refine ⟨?_, ?_, ?_, ?_, ?_⟩ <;> intros h1
  · simp [Timebounds.validate, h1, TimeoutInfinite]
  all_goals intros h2
  · simp [Timebounds.validate, h1, h2, TimeoutInfinite]
  all_goals intros h3
  · simp [Timebounds.validate, h1, h3, TimeoutInfinite, not_lt.mpr h2]
  · intros h4 h5
    simp [Timebounds.validate, h1, TimeoutInfinite, not_lt.mpr h2, not_lt.mpr h3, h4, h5]
  · rcases h3 with h3 | h3
    · simp [Timebounds.validate, h1, TimeoutInfinite, not_lt.mpr h2, h3]
    · have hmax : ¬ tb.maxTime < 0 := by omega
      have hlt : ¬ tb.maxTime < tb.minTime := not_lt.mpr h3
      simp [Timebounds.validate, h1, TimeoutInfinite, not_lt.mpr h2, hmax, hlt]

/-- Witness for C4, exercising every branch at concrete inputs: the
default (zero) `Timebounds`, and factory-built values hitting each
error and the success case (values from the package's own tests). -/
theorem c4_timebounds_validate_witness :
    (Timebounds.mk (-1) 300 false).wasBuilt = false ∧
    (Timebounds.mk (-1) 300 false).validate = .error "timebounds must be constructed using SetTimebounds(), SetTimeout(), or SetNoTimeout()" ∧
    (SetTimebounds (-1) 300).validate = .error "invalid timebound: minTime cannot be negative" ∧
    (SetTimebounds 1 (-300)).validate = .error "invalid timebound: maxTime cannot be negative" ∧
    (SetTimebounds 5555624032 300).validate = .error "invalid timebound: maxTime < minTime" ∧
    (SetNoTimeout 0).validate = .ok () ∧
    (SetTimebounds 1 300).validate = .ok () := by
  refine ⟨by decide, ?_, ?_, ?_, ?_, ?_, ?_⟩
  · exact (c4_timebounds_validate (Timebounds.mk (-1) 300 false)).1 (by decide)
  · exact (c4_timebounds_validate (SetTimebounds (-1) 300)).2.1 (by decide) (by decide)
  · exact (c4_timebounds_validate (SetTimebounds 1 (-300))).2.2.1 (by decide) (by decide) (by decide)
  · exact (c4_timebounds_validate (SetTimebounds 5555624032 300)).2.2.2.1 (by decide)
      (by decide) (by decide) (by decide) (by decide)
  · exact (c4_timebounds_validate (SetNoTimeout 0)).2.2.2.2 (by decide) (by decide)
      (Or.inl (by decide))
  · exact (c4_timebounds_validate (SetTimebounds 1 300)).2.2.2.2 (by decide) (by decide)
      (Or.inr (by decide))

/-! ## Claim C1: an explicit non-zero fee is preserved verbatim -/

/-- C1: for every transaction whose wire fee was already set to a
non-zero value by the caller, a successful `Build` leaves that fee
unchanged, whatever the number of operations; `SetDefaultFee` does not
overwrite it. -/
theorem c1_explicit_fee_preserved (tx tx' : Transaction)
    (hfee : tx.xdrTransaction.fee ≠ 0) (h : tx.build = .ok tx') :
    tx'.xdrTransaction.fee = tx.xdrTransaction.fee := by
  obtain ⟨staged, _, _, _, hfee'⟩ := build_ok_fields tx tx' h
  simpa [hfee] using hfee'

/-- Witness for C1: a three-operation transaction with explicit fee 7
builds successfully and keeps fee 7. -/
theorem c1_explicit_fee_preserved_witness :
    (mkTx [inflationOp, inflationOp, inflationOp] 0 7 0 0).xdrTransaction.fee ≠ 0 ∧
    ((mkTx [inflationOp, inflationOp, inflationOp] 0 7 0 0).builtOf).xdrTransaction.fee =
      (mkTx [inflationOp, inflationOp, inflationOp] 0 7 0 0).xdrTransaction.fee := by
  refine ⟨by decide, ?_⟩
  exact c1_explicit_fee_preserved _ _ (by decide) (by decide)

/-! ## Claim C2: timebounds attached iff `minTime > 0 ∨ maxTime > 0` -/

/-- C2: for every fresh transaction (no staged timebounds), a successful
`Build` attaches a wire timebounds structure carrying the transaction's
`MinTime`/`MaxTime` exactly when `MinTime > 0` or `MaxTime > 0`, and
omits timebounds entirely otherwise (in particular when both are 0). -/
theorem c2_timebounds_attached_iff (tx tx' : Transaction)
    (h0 : tx.xdrTransaction.timeBounds = none) (h : tx.build = .ok tx') :
    (tx'.xdrTransaction.timeBounds ≠ none ↔ (tx.minTime > 0 ∨ tx.maxTime > 0)) ∧
    tx'.xdrTransaction.timeBounds =
      (if tx.minTime > 0 ∨ tx.maxTime > 0
       then some ⟨toUint64 tx.minTime, toUint64 tx.maxTime⟩
       else none) := by
  obtain ⟨staged, _, _, htb, _⟩ := build_ok_fields tx tx' h
  rw [h0] at htb
  constructor
  · by_cases hc : tx.minTime > 0 ∨ tx.maxTime > 0 <;> simp [htb, hc]
  · exact htb

/-- Witness for C2: a transaction with `MinTime = 5`, `MaxTime = 0`
builds with timebounds `⟨5, 0⟩` attached (and a non-`none` wire field
iff the condition holds, which it does). -/
theorem c2_timebounds_attached_iff_witness :
    (mkTx [inflationOp] 0 0 5 0).xdrTransaction.timeBounds = none ∧
    (((mkTx [inflationOp] 0 0 5 0).builtOf).xdrTransaction.timeBounds ≠ none ↔
      ((mkTx [inflationOp] 0 0 5 0).minTime > 0 ∨ (mkTx [inflationOp] 0 0 5 0).maxTime > 0)) ∧
    ((mkTx [inflationOp] 0 0 5 0).builtOf).xdrTransaction.timeBounds =
      (if (mkTx [inflationOp] 0 0 5 0).minTime > 0 ∨ (mkTx [inflationOp] 0 0 5 0).maxTime > 0
       then some ⟨toUint64 (mkTx [inflationOp] 0 0 5 0).minTime,
                  toUint64 (mkTx [inflationOp] 0 0 5 0).maxTime⟩
       else none) := by
  refine ⟨by decide, ?_, ?_⟩
  · exact (c2_timebounds_attached_iff _ _ (by decide) (by decide)).1
  · exact (c2_timebounds_attached_iff _ _ (by decide) (by decide)).2

/-! ## Claim C5: default fee `100 * N` (corrected: reduced mod `2 ^ 32`)

The Go assignment is `xdr.Uint32(int(tx.BaseFee) * len(ops))`: the
product is computed in `int` and converted to an unsigned 32-bit wire
field, keeping only the low 32 bits.  For `N ≥ 2 ^ 32 / 100` the wire
fee is therefore `(100 * N) % 2 ^ 32`, not `100 * N`. -/

theorem buildOpsLoop_replicate (op : Operation) (b : XdrOperation)
    (hb : op.buildXDR = .ok b) (n : Nat) :
    ∀ acc, buildOpsLoop (List.replicate n op) acc = .ok (acc ++ List.replicate n b) := by
  induction n with
  | zero => intro acc; simp [buildOpsLoop]
  | succ k ih =>
    intro acc
    simp only [List.replicate_succ, buildOpsLoop, hb, ih (acc ++ [b])]
    simp

/-- A transaction with `2 ^ 32` always-convertible operations and no
explicit fee. -/
def hugeTx : Transaction := mkTx (List.replicate (2 ^ 32) inflationOp) 0 0 0 0

/-- Counterexample to C5 as stated: `hugeTx` has `N = 2 ^ 32`
operations and no explicit fee, yet a successful `Build` leaves wire
fee `0`, not `100 * N = 429496729600` (the product is truncated to the
32-bit wire field). -/
theorem c5_counterexample :
    hugeTx.baseFee = 0 ∧ hugeTx.xdrTransaction.fee = 0 ∧
    hugeTx.operations.length = 2 ^ 32 ∧
    hugeTx.builtWireFee = .ok 0 ∧ (0 : Nat) ≠ 100 * 2 ^ 32 := by
  refine ⟨rfl, rfl, by rw [hugeTx, mkTx]; exact List.length_replicate _ _, ?_, by norm_num⟩
  obtain ⟨tx', h⟩ := build_ok_of_stages hugeTx 3556091187167236 rfl
    (by
      intro op hop
      have hop' : op ∈ List.replicate (2 ^ 32) inflationOp := hop
      rw [List.eq_of_mem_replicate hop']
      exact ⟨⟨"inflation"⟩, rfl⟩)
    (Or.inl rfl)
  obtain ⟨staged, hstaged, _, _, hfee⟩ := build_ok_fields hugeTx tx' h
  have hrepl : buildOpsLoop hugeTx.operations hugeTx.xdrTransaction.operations =
      .ok (List.replicate (2 ^ 32) (⟨"inflation"⟩ : XdrOperation)) := by
    have hloop := buildOpsLoop_replicate inflationOp ⟨"inflation"⟩ rfl (2 ^ 32) []
    rw [List.nil_append] at hloop
    exact hloop
  rw [hrepl] at hstaged
  have hstaged' : staged = List.replicate (2 ^ 32) (⟨"inflation"⟩ : XdrOperation) :=
    (Except.ok.inj hstaged).symm
  rw [Transaction.builtWireFee, h]
  show Except.ok tx'.xdrTransaction.fee = Except.ok 0
  have hf0 : hugeTx.xdrTransaction.fee = 0 := rfl
  have hb0 : hugeTx.baseFee = 0 := rfl
  rw [hfee, if_pos hf0, if_pos hb0, hstaged', List.length_replicate]
  exact congrArg Except.ok (Nat.mul_mod_left 100 (2 ^ 32))

/-- C5 amended: with no explicit fee (both fee knobs zero) and a fresh
staged body, a successful `Build` yields wire fee
`(100 * N) % 2 ^ 32` for `N` supplied operations — equal to `100 * N`
exactly when the product fits the 32-bit wire field. -/
theorem c5_default_fee_mod32 (tx tx' : Transaction)
    (hbase : tx.baseFee = 0) (hfee : tx.xdrTransaction.fee = 0)
    (h0 : tx.xdrTransaction.operations = [])
    (h : tx.build = .ok tx') :
    tx'.xdrTransaction.fee = (100 * tx.operations.length) % (2 ^ 32) := by
  obtain ⟨staged, hstaged, _, _, hfee'⟩ := build_ok_fields tx tx' h
  rw [h0] at hstaged
  obtain ⟨out, _, hres, hlen⟩ := buildOpsLoop_ok _ _ _ hstaged
  simp only [List.nil_append] at hres
  rw [hfee, if_pos rfl, hbase, if_pos rfl] at hfee'
  rw [hfee', hres, hlen]

/-- Witness for C5 (amended): three operations, no explicit fee, wire
fee `(100 * 3) % 2 ^ 32 = 300`. -/
theorem c5_default_fee_mod32_witness :
    (mkTx [inflationOp, inflationOp, inflationOp] 0 0 0 0).baseFee = 0 ∧
    ((mkTx [inflationOp, inflationOp, inflationOp] 0 0 0 0).builtOf).xdrTransaction.fee =
      (100 * (mkTx [inflationOp, inflationOp, inflationOp] 0 0 0 0).operations.length) % (2 ^ 32) := by
  refine ⟨rfl, ?_⟩
  exact c5_default_fee_mod32 _ _ rfl rfl rfl (by decide)

/-! ## Claim C6: operation order preserved verbatim -/

/-- C6: for every fresh transaction (empty staged operation list) whose
`Build` succeeds, the staged wire operations are exactly the
per-operation wire conversions of the supplied operations, in supplied
order - no reordering, deduplication or omission. -/
theorem c6_operation_order (tx tx' : Transaction)
    (h0 : tx.xdrTransaction.operations = []) (h : tx.build = .ok tx') :
    wireConversions tx.operations = .ok tx'.xdrTransaction.operations := by
  obtain ⟨staged, hstaged, hops, _, _⟩ := build_ok_fields tx tx' h
  rw [h0] at hstaged
  obtain ⟨out, hout, hres, _⟩ := buildOpsLoop_ok _ _ _ hstaged
  simp only [List.nil_append] at hres
  rw [hops, hres, hout]

/-- Witness for C6: two distinct operations convert in supplied order. -/
theorem c6_operation_order_witness :
    (mkTx [inflationOp, ⟨"*txnbuild.BumpSequence", .ok ⟨"bumpSequence"⟩⟩] 0 0 0 0).xdrTransaction.operations = [] ∧
    wireConversions (mkTx [inflationOp, ⟨"*txnbuild.BumpSequence", .ok ⟨"bumpSequence"⟩⟩] 0 0 0 0).operations =
      .ok ((mkTx [inflationOp, ⟨"*txnbuild.BumpSequence", .ok ⟨"bumpSequence"⟩⟩] 0 0 0 0).builtOf).xdrTransaction.operations := by
  refine ⟨rfl, ?_⟩
  exact c6_operation_order _ _ rfl (by decide)

/-! ## Claim C10: `Build` never validates the timebounds fields -/

/-- C10: whenever sequence-number retrieval, every operation conversion
and the memo conversion succeed, `Build` succeeds for EVERY setting of
the `MinTime`/`MaxTime` fields - including a negative `MinTime` or
`MaxTime < MinTime`; no stage of the build pipeline invokes
`Timebounds.Validate` or otherwise inspects the bounds beyond the
attach-or-omit test. -/
theorem c10_build_ignores_timebounds (tx : Transaction) (s : Int)
    (hseq : tx.sourceAccount.incrementSequenceNumber = .ok s)
    (hops : ∀ op ∈ tx.operations, ∃ b, op.buildXDR = .ok b)
    (hmemo : tx.memo = none ∨ ∃ m xm, tx.memo = some m ∧ m.toXDR = .ok xm)
    (mn mx : Int) :
    ({ tx with minTime := mn, maxTime := mx } : Transaction).buildSucceeds = true := by
  obtain ⟨tx', h⟩ :=
    build_ok_of_stages { tx with minTime := mn, maxTime := mx } s hseq hops hmemo
  simp [Transaction.buildSucceeds, h]

/-- Witness for C10: a transaction whose bounds (`MinTime = -5`,
`MaxTime = -10`) would fail every `Timebounds.Validate` check still
builds successfully. -/
theorem c10_build_ignores_timebounds_witness :
    (SetTimebounds (-5) (-10)).validate ≠ .ok () ∧
    (mkTx [inflationOp] 0 0 (-5) (-10)).buildSucceeds = true := by
  refine ⟨by decide, ?_⟩
  exact c10_build_ignores_timebounds (mkTx [inflationOp] 0 0 (-5) (-10)) 3556091187167236
    rfl (by intro op hop; simp [mkTx] at hop; simp [hop, inflationOp]) (Or.inl rfl) (-5) (-10)

/-! ## Claim C3: first-failure abort (corrected: no position in the error)

The Go error is `errors.Wrap(err, fmt.Sprintf("Failed to build
operation %T", op))`: it names the failing operation's Go type (kind)
and wraps the underlying cause, but contains no position.  The
package's own test asserts exactly this position-free message. -/

/-- Counterexample to C3 as stated: the same failing operation at list
position 0 and at list position 1 produces the *identical* error value,
so the error cannot name the failing operation's position. -/
theorem c3_counterexample :
    (mkTx [assetlessPaymentOp] 0 0 0 0).build =
      .error "Failed to build operation *txnbuild.Payment: You must specify an asset for payment" ∧
    (mkTx [inflationOp, assetlessPaymentOp] 0 0 0 0).build =
      .error "Failed to build operation *txnbuild.Payment: You must specify an asset for payment" := by
  constructor <;> decide

/-- C3 amended: for every transaction whose operation list splits as
`good ++ bad :: rest` with every operation of `good` convertible and
`bad` failing with cause `e`, `Build` aborts at that first failure
(whatever follows in `rest`) and returns the error that names the
failing operation's kind and wraps `e`; the operation's position is not
part of the error. -/
theorem c3_first_failure_abort (tx : Transaction) (s : Int)
    (good : List Operation) (bad : Operation) (rest : List Operation) (e : String)
    (hseq : tx.sourceAccount.incrementSequenceNumber = .ok s)
    (hsplit : tx.operations = good ++ bad :: rest)
    (hgood : ∀ op ∈ good, ∃ b, op.buildXDR = .ok b)
    (hbad : bad.buildXDR = .error e) :
    tx.build = .error (errWrap ("Failed to build operation " ++ bad.typeName) e) := by
  unfold Transaction.build
  simp only [hseq]
  rw [hsplit, buildOpsLoop_first_error good bad rest e hgood hbad]

/-- Witness for C3 (amended): an always-convertible operation followed
by the asset-less payment aborts with the kind-naming error. -/
theorem c3_first_failure_abort_witness :
    (mkTx [inflationOp, assetlessPaymentOp] 0 0 0 0).operations =
      [inflationOp] ++ assetlessPaymentOp :: [] ∧
    (mkTx [inflationOp, assetlessPaymentOp] 0 0 0 0).build =
      .error (errWrap ("Failed to build operation " ++ assetlessPaymentOp.typeName)
        "You must specify an asset for payment") := by
  refine ⟨rfl, ?_⟩
  exact c3_first_failure_abort _ 3556091187167236 [inflationOp] assetlessPaymentOp [] _
    rfl rfl (by intro op hop; simp at hop; simp [hop, inflationOp]) rfl

/-! ## Claim C7: the envelope snapshot happens exactly once -/

/-- C7: the first `Sign` on a built transaction with no envelope yet
snapshots the current built body into the newly created envelope; a
later `Sign`, even after the transaction's built body has been replaced
by an arbitrary `b'`, reuses the existing envelope's body unchanged. -/
theorem c7_envelope_snapshot_once (tx : Transaction) (k1 k2 : Keypair)
    (b' : XdrTransaction) (h : tx.xdrEnvelope = none) :
    (tx.sign k1).envelopeBody = some tx.xdrTransaction ∧
    (((tx.sign k1).withBuiltBody b').sign k2).envelopeBody = some tx.xdrTransaction := by
  constructor <;>
    simp [Transaction.sign, Transaction.envelopeBody, Transaction.withBuiltBody, h]

/-- Witness for C7: a concrete unsigned transaction, two keys, and a
replacement body with a different fee; the envelope body stays the
snapshot taken at the first `Sign`. -/
theorem c7_envelope_snapshot_once_witness :
    (mkTx [inflationOp] 0 0 0 0).xdrEnvelope = none ∧
    ((mkTx [inflationOp] 0 0 0 0).sign ⟨"GKEY1"⟩).envelopeBody =
      some (mkTx [inflationOp] 0 0 0 0).xdrTransaction ∧
    ((((mkTx [inflationOp] 0 0 0 0).sign ⟨"GKEY1"⟩).withBuiltBody
        { XdrTransaction.empty with fee := 999 }).sign ⟨"GKEY2"⟩).envelopeBody =
      some (mkTx [inflationOp] 0 0 0 0).xdrTransaction := by
  refine ⟨rfl, ?_, ?_⟩
  · exact (c7_envelope_snapshot_once (mkTx [inflationOp] 0 0 0 0) ⟨"GKEY1"⟩ ⟨"GKEY2"⟩
      { XdrTransaction.empty with fee := 999 } rfl).1
  · exact (c7_envelope_snapshot_once (mkTx [inflationOp] 0 0 0 0) ⟨"GKEY1"⟩ ⟨"GKEY2"⟩
      { XdrTransaction.empty with fee := 999 } rfl).2

/-! ## Claim C8: two `Sign` calls append two signatures in call order -/

/-- C8: signing twice with two different keys appends exactly the two
decorated signatures, in call order, to the envelope's sequence; each
`Sign` appends exactly one signature and leaves the built body
untouched. -/
theorem c8_two_signatures_in_order (tx : Transaction) (k1 k2 : Keypair)
    (_hk : k1 ≠ k2) :
    ((tx.sign k1).sign k2).envelopeSigs =
      tx.envelopeSigs ++ [k1.signDecorated tx.hash, k2.signDecorated tx.hash] ∧
    (tx.sign k1).envelopeSigs = tx.envelopeSigs ++ [k1.signDecorated tx.hash] ∧
    ((tx.sign k1).sign k2).xdrTransaction = tx.xdrTransaction := by
  cases henv : tx.xdrEnvelope <;>
    simp [Transaction.sign, Transaction.envelopeSigs, Transaction.hash, henv]

/-- Witness for C8: two distinct concrete keys yield exactly their two
decorated signatures in call order on a fresh envelope. -/
theorem c8_two_signatures_in_order_witness :
    (⟨"GKEY1"⟩ : Keypair) ≠ (⟨"GKEY2"⟩ : Keypair) ∧
    (((mkTx [inflationOp] 0 0 0 0).sign ⟨"GKEY1"⟩).sign ⟨"GKEY2"⟩).envelopeSigs =
      (mkTx [inflationOp] 0 0 0 0).envelopeSigs ++
        [Keypair.signDecorated ⟨"GKEY1"⟩ (mkTx [inflationOp] 0 0 0 0).hash,
         Keypair.signDecorated ⟨"GKEY2"⟩ (mkTx [inflationOp] 0 0 0 0).hash] := by
  refine ⟨by decide, ?_⟩
  exact (c8_two_signatures_in_order (mkTx [inflationOp] 0 0 0 0) ⟨"GKEY1"⟩ ⟨"GKEY2"⟩
    (by decide)).1

/-! ## Claim C9: `AllowTrust.BuildXDR` and the native asset -/

/-- C9: an allow-trust over the native asset never yields a wire body -
when the trustor address is well-formed it fails with exactly the
native-asset validation error (with a malformed trustor the earlier
address stage already fails); with a well-formed trustor address and an
issued (non-native) asset the conversion succeeds. -/
theorem c9_allow_trust_native (a : AllowTrust) :
    (a.type.isNative = true →
      (∀ b, a.buildXDR ≠ .ok b) ∧
      (setAddressOk a.trustor = true →
        a.buildXDR = .error "Trustline doesn't exist for a native (XLM) asset")) ∧
    (setAddressOk a.trustor = true → a.type.isNative = false →
      ∃ b, a.buildXDR = .ok b) := by
  unfold AllowTrust.buildXDR
  constructor
  · intro hnat
    constructor
    · intro b
      by_cases haddr : setAddressOk a.trustor <;> simp [haddr, hnat]
    · intro haddr
      simp [haddr, hnat]
  · intro haddr hnn
    simp [haddr, hnn]

/-- Witness for C9: a native-asset allow-trust with a well-formed
trustor fails with the native-asset error; the same trustor with an
issued asset succeeds. -/
theorem c9_allow_trust_native_witness :
    (AllowTrust.mk "GB7BDSZU2Y27LYNLALKKALB52WS2IZWYBDGY6EQBLEED3TJOCVMZRH7H" Asset.native true).buildXDR =
      .error "Trustline doesn't exist for a native (XLM) asset" ∧
    ∃ b, (AllowTrust.mk "GB7BDSZU2Y27LYNLALKKALB52WS2IZWYBDGY6EQBLEED3TJOCVMZRH7H"
        (Asset.credit "ABCD" "GKEY1") true).buildXDR = .ok b := by
  constructor
  · exact ((c9_allow_trust_native _).1 (by decide)).2 (by decide)
  · exact (c9_allow_trust_native _).2 (by decide) (by decide)
